import Mathlib

/-!
Shallow embedding of the eoss3 storage-backend adapter (gmgigi96/eoss3).

The Go sources embedded here:
- eoss3/eoss3.go   : the translation backend (CreateBucket, ListBuckets,
                     prepareListBucketResult, ListObjects, ListObjectsV2,
                     isHiddenResource, mdResponseToS3Object)
- eos/client.go    : the EOS client (Stat, ListDir, buildFullHttpUrl,
                     Download, Upload redirect loops)
- eos/errors.go    : IsVersionFolder / IsAtomicFile
- meta (in-memory) : InMemoryBucketStorer
- meta/local.go    : LocalBucketStorer user-metadata logic
- the CLI create-bucket command (cmd package)

Machine integers are modelled as Nat/Int; Go maps as association lists;
Go slices as lists; the remote EOS service and the HTTP endpoint are
modelled as explicit inputs (streams of metadata nodes, lists of HTTP
responses) supplied to the embedded functions.
-/

namespace EosS3

/-- Models Go `strings.HasPrefix s pre` on the character level. -/
def goHasPrefixStr (s pre : String) : Bool :=
  pre.toList.isPrefixOf s.toList

/-- Substring search on character lists: `sub` occurs contiguously. -/
def listContains (sub : List Char) : List Char → Bool
  | [] => sub.isEmpty
  | c :: cs => sub.isPrefixOf (c :: cs) || listContains sub cs

/-- Models Go `strings.Contains s sub` on the character level
(for the non-empty patterns used in this code base). -/
def strContains (s sub : String) : Bool :=
  listContains sub.toList s.toList

/-- Models Go `strings.TrimRight s "/"`. -/
def trimRightSlash (s : String) : String :=
  String.mk ((s.toList.reverse.dropWhile (fun c => c = '/')).reverse)

/-- Models Go `strings.TrimLeft s "/"`. -/
def trimLeftSlash (s : String) : String :=
  String.mk (s.toList.dropWhile (fun c => c = '/'))

/-- Models Go `strings.ReplaceAll s "#" "%23"` (single-character pattern,
so replacement is character by character), from `buildFullHttpUrl`. -/
def escapeHashList : List Char → List Char
  | [] => []
  | c :: cs =>
    if c = '#' then '%' :: '2' :: '3' :: escapeHashList cs
    else c :: escapeHashList cs

/-- String version of `escapeHashList`. -/
def escapeHash (s : String) : String :=
  String.mk (escapeHashList s.toList)

/-- Models Go `filepath.Join a b` for the clean, absolute directory `a` and
clean relative name `b` used at the Join call sites embedded here. -/
def goFilepathJoin (a b : String) : String :=
  a ++ "/" ++ b

/-- Models the Go builtin `copy dst src` (copies `min dst.length src.length`
elements into `dst` and leaves the rest of `dst` unchanged), returning the
resulting contents of `dst`. -/
def goCopy {α : Type} (dst src : List α) : List α :=
  src.take dst.length ++ dst.drop src.length

/-- Models Go map assignment `m[k] = v` on an association list. -/
def assocSet {α β : Type} [DecidableEq α] (l : List (α × β)) (k : α) (v : β) :
    List (α × β) :=
  if (l.lookup k).isSome then
    l.map (fun p => if p.1 = k then (k, v) else p)
  else
    l ++ [(k, v)]

/-- Decidable equality on `Except`, used to evaluate the embedded
fallible operations on concrete inputs. -/
instance {ε α : Type} [DecidableEq ε] [DecidableEq α] : DecidableEq (Except ε α) := fun
  | .ok a, .ok b =>
    match decEq a b with
    | isTrue h => isTrue (by rw [h])
    | isFalse h => isFalse (fun hc => by cases hc; exact h rfl)
  | .ok _, .error _ => isFalse (fun hc => by cases hc)
  | .error _, .ok _ => isFalse (fun hc => by cases hc)
  | .error a, .error b =>
    match decEq a b with
    | isTrue h => isTrue (by rw [h])
    | isFalse h => isFalse (fun hc => by cases hc; exact h rfl)

/-- `eos.IsVersionFolder` (eos/errors.go): the resource is a version folder. -/
def isVersionFolder (path : String) : Bool :=
  strContains path ".sys.v#."

/-- `eos.IsAtomicFile` (eos/errors.go): the resource is an atomic file. -/
def isAtomicFile (path : String) : Bool :=
  strContains path ".sys.a#"

/-- `isHiddenResource` (eoss3/eoss3.go). -/
def isHiddenResource (path : String) : Bool :=
  isVersionFolder path || isAtomicFile path

/-- `meta.Bucket`: bucket name, backing path on EOS, creation time
(time modelled as a Nat tick). -/
structure Bucket where
  name : String
  path : String
  createdAt : Nat
  deriving DecidableEq

/-- `s3response.ListAllMyBucketsEntry`: the fields filled in by
`prepareListBucketResult` (name and creation date). -/
structure ListAllMyBucketsEntry where
  name : String
  creationDate : Nat
  deriving DecidableEq

/-- The `for i, b := range buckets` loop body of `prepareListBucketResult`
(eoss3/eoss3.go): stop returning `b.Name` as soon as the index reaches
`max-1`, skip entries that do not have the requested name prefix, and
otherwise emit an entry. `max` is the int32 input, modelled as Int. -/
def prepareListBucketLoop (pfx : String) (max : Int) :
    Nat → List Bucket → List ListAllMyBucketsEntry × String
  | _, [] => ([], "")
  | i, b :: rest =>
    if (i : Int) = max - 1 then ([], b.name)
    else if !(goHasPrefixStr b.name pfx) then prepareListBucketLoop pfx max (i + 1) rest
    else
      let (entries, tkn) := prepareListBucketLoop pfx max (i + 1) rest
      (⟨b.name, b.createdAt⟩ :: entries, tkn)

/-- `prepareListBucketResult` (eoss3/eoss3.go): drop the buckets strictly
before the first bucket whose name equals the continuation token (the
token's bucket itself is kept), then run the paging loop. -/
def prepareListBucketResult (buckets : List Bucket) (pfx tkn : String)
    (max : Int) : List ListAllMyBucketsEntry × String :=
  let buckets :=
    match buckets.findIdx? (fun b => b.name = tkn) with
    | some i => buckets.drop i
    | none => buckets
  prepareListBucketLoop pfx max 0 buckets

/-- Iterated client-side pagination: call `prepareListBucketResult`
repeatedly, feeding back the returned continuation token, until the token
comes back empty. `fuel` bounds the iteration for termination. -/
def paginateListBuckets (buckets : List Bucket) (pfx : String) (max : Int) :
    Nat → String → List (List ListAllMyBucketsEntry × String)
  | 0, _ => []
  | fuel + 1, tkn =>
    let (entries, tkn') := prepareListBucketResult buckets pfx tkn max
    if tkn' = "" then [(entries, tkn')]
    else (entries, tkn') :: paginateListBuckets buckets pfx max fuel tkn'

/-- The five registered buckets of the pagination scenario. -/
def demoBuckets : List Bucket :=
  [⟨"b1", "/eos/b1", 1⟩, ⟨"b2", "/eos/b2", 2⟩, ⟨"b3", "/eos/b3", 3⟩,
   ⟨"b4", "/eos/b4", 4⟩, ⟨"b5", "/eos/b5", 5⟩]

/-! ## Bucket registry: the in-memory driver (meta.InMemoryBucketStorer) -/

/-- Registry errors (meta package): `ErrBucketAlreadyExisting`,
`ErrNoSuchBucket`. -/
inductive MetaErr
  | bucketAlreadyExisting
  | noSuchBucket
  deriving DecidableEq

/-- A Go runtime panic relevant here: writing to a nil map. -/
inductive GoPanic
  | nilMapWrite
  deriving DecidableEq

/-- The state of an `InMemoryBucketStorer`: `buckets` and `users` are
initialized maps; `paths` mirrors the `paths` field, which
`NewInMemoryBucketStorer` leaves nil (`none` models the nil map). -/
structure MemState where
  buckets : List (String × Bucket)
  users : List (Int × List String)
  paths : Option (List (Int × String))
  deriving DecidableEq

/-- `NewInMemoryBucketStorer`: `buckets` and `users` are allocated,
`paths` is left nil. -/
def newInMemoryBucketStorer : MemState :=
  { buckets := [], users := [], paths := none }

/-- `InMemoryBucketStorer.GetBucket`. -/
def memGetBucket (st : MemState) (name : String) : Except MetaErr Bucket :=
  match st.buckets.lookup name with
  | none => .error .noSuchBucket
  | some b => .ok b

/-- `InMemoryBucketStorer.CreateBucket`. -/
def memCreateBucket (st : MemState) (bucket : Bucket) :
    MemState × Except MetaErr Unit :=
  if (st.buckets.lookup bucket.name).isSome then
    (st, .error .bucketAlreadyExisting)
  else
    ({ st with buckets := assocSet st.buckets bucket.name bucket }, .ok ())

/-- `InMemoryBucketStorer.DeleteBucket` (never fails). -/
def memDeleteBucket (st : MemState) (name : String) : MemState :=
  { st with buckets := st.buckets.filter (fun p => p.1 ≠ name) }

/-- `InMemoryBucketStorer.AssignBucket`:
`s.users[uid] = append(s.users[uid], name)` (never fails; `users` is an
initialized map, so the nil-map write cannot happen here). -/
def memAssignBucket (st : MemState) (name : String) (uid : Int) : MemState :=
  { st with users := assocSet st.users uid (((st.users.lookup uid).getD []) ++ [name]) }

/-- `InMemoryBucketStorer.ListBucketsByUser`: reads the user's bucket-name
slice, allocates `list := make([]string, 0, len(buckets))` (length zero),
and runs `copy(list, buckets)` — which copies `min (len list) (len buckets)`
elements — before returning `list`. -/
def memListBucketsByUser (st : MemState) (uid : Int) : List String :=
  let buckets := (st.users.lookup uid).getD []
  let list : List String := List.replicate 0 ""
  goCopy list buckets

/-- `InMemoryBucketStorer.UnassignBucket`:
`slices.DeleteFunc` removes every occurrence of `name`. -/
def memUnassignBucket (st : MemState) (name : String) (uid : Int) : MemState :=
  { st with users := assocSet st.users uid (((st.users.lookup uid).getD []).filter (fun b => b ≠ name)) }

/-- `InMemoryBucketStorer.GetDefaultBucketPath`: `return s.paths[uid], nil`;
reading a nil Go map yields the zero value, so a nil `paths` map gives "". -/
def memGetDefaultBucketPath (st : MemState) (uid : Int) : String :=
  match st.paths with
  | none => ""
  | some m => (m.lookup uid).getD ""

/-- `InMemoryBucketStorer.StoreDefaultBucketPath`: `s.paths[uid] = path`;
assigning into a nil Go map panics at runtime. -/
def memStoreDefaultBucketPath (st : MemState) (uid : Int) (path : String) :
    Except GoPanic MemState :=
  match st.paths with
  | none => .error .nilMapWrite
  | some m => .ok { st with paths := some (assocSet m uid path) }

/-! ## Bucket registry: the on-disk driver's default-path logic
(meta/local.go). Only the per-uid metadata file matters for the
default-path round trip; it is modelled as `Option UserMetadata`
(`none` = the file does not exist). JSON encode/decode round-trips and is
modelled as the identity. -/

/-- `meta.UserMetadata`. -/
structure UserMetadata where
  defaultBucketPath : String
  deriving DecidableEq

/-- `LocalBucketStorer.getUserMetadata`: a missing file yields the empty
`UserMetadata{}`. -/
def localGetUserMetadata (file : Option UserMetadata) : UserMetadata :=
  file.getD ⟨""⟩

/-- `LocalBucketStorer.GetDefaultBucketPath`. -/
def localGetDefaultBucketPath (file : Option UserMetadata) : String :=
  (localGetUserMetadata file).defaultBucketPath

/-- `LocalBucketStorer.StoreDefaultBucketPath uid path`: reads the current
metadata into `meta` and then calls `storeUserMetadata(uid, meta)` — the
`path` argument is never written into `meta`, so the stored file is the
old metadata unchanged. Returns the new contents of the metadata file. -/
def localStoreDefaultBucketPath (file : Option UserMetadata) (_path : String) :
    Option UserMetadata :=
  some (localGetUserMetadata file)

/-! ## Backend and CLI CreateBucket sequences -/

/-- `auth.Account`: the fields the backend reads
(`UserID`, `GroupID`). -/
structure Account where
  userID : Int
  groupID : Int
  deriving DecidableEq

/-- Errors surfaced by the embedded backend operations: the s3err API
errors it constructs, plus registry and EOS errors returned raw. -/
inductive BackendErr
  | apiBucketAlreadyExists
  | apiAccessDenied
  | apiInvalidQueryParams
  | apiInvalidRequest
  | apiNoSuchKey
  | fromMeta (e : MetaErr)
  | fromEos (msg : String)
  deriving DecidableEq

/-- `EosBackend.CreateBucket` (eoss3/eoss3.go) over the in-memory registry:
duplicate check, logged-account check, default-path resolution
(`InvalidQueryParams` when empty), registry write, then remote mkdir.
The mkdir outcome is an input (`.ok` or the EOS error). On mkdir failure
the code returns the error directly, leaving the registry state as the
mkdir saw it. -/
def backendCreateBucket (st : MemState) (acct : Option Account) (name : String)
    (now : Nat) (mkdirResult : Except String Unit) :
    MemState × Except BackendErr Unit :=
  match memGetBucket st name with
  | .ok _ => (st, .error .apiBucketAlreadyExists)
  | .error _ =>
    match acct with
    | none => (st, .error .apiAccessDenied)
    | some acct =>
      let defaultPath := memGetDefaultBucketPath st acct.userID
      if defaultPath = "" then (st, .error .apiInvalidQueryParams)
      else
        let bucketPath := goFilepathJoin defaultPath name
        let bucket : Bucket := ⟨name, bucketPath, now⟩
        match memCreateBucket st bucket with
        | (st, .error e) => (st, .error (.fromMeta e))
        | (st, .ok _) =>
          match mkdirResult with
          | .error msg => (st, .error (.fromEos msg))
          | .ok _ => (st, .ok ())

/-- The CLI `create-bucket` command (cmd package, RunE variant):
registry CreateBucket, then AssignBucket, then remote mkdir; on an
AssignBucket failure the bucket is deleted, and on a mkdir failure the
assignment is removed and the bucket deleted (compensating deletes). -/
def cmdCreateBucket (st : MemState) (name path : String) (uid : Int) (now : Nat)
    (mkdirResult : Except String Unit) : MemState × Except BackendErr Unit :=
  match memCreateBucket st ⟨name, path, now⟩ with
  | (st, .error e) => (st, .error (.fromMeta e))
  | (st, .ok _) =>
    let st := memAssignBucket st name uid
    match mkdirResult with
    | .error msg =>
      let st := memUnassignBucket st name uid
      let st := memDeleteBucket st name
      (st, .error (.fromEos msg))
    | .ok _ => (st, .ok ())

/-! ## Listing emulation (ListObjects / ListObjectsV2)

The remote Find stream is modelled as the list of metadata nodes the EOS
service sends, in order. Per the remote protocol, the queried directory
itself is always the first streamed entry; `Client.ListDir`
(eos/client.go) skips exactly that first entry and applies the callback to
the rest, which the embedding renders as `stream.drop 1` folded with the
callback. Only the node type and path feed into the response keys; the
remaining node metadata (size, mtime, etag, uid) does not affect any
listing-membership property and is omitted. -/

/-- Remote node type (erpc.TYPE_CONTAINER / erpc.TYPE_FILE). -/
inductive NodeType
  | container
  | file
  deriving DecidableEq

/-- A streamed metadata node: its type and full remote path. -/
structure MDNode where
  type : NodeType
  path : String
  deriving DecidableEq

/-- The key computation of `mdResponseToS3Object` (eoss3/eoss3.go):
`key := filepath.Rel(bucketDir, path)` — for the well-formed streams of
this system every listed node lives under `bucketDir`, where Rel yields
the path with the `bucketDir ++ "/"` head removed (other nodes are kept
as-is) — and containers get a trailing "/" appended to the key. -/
def relPath (bucketDir p : String) : String :=
  if goHasPrefixStr p (bucketDir ++ "/") then
    String.mk (p.toList.drop (bucketDir.toList.length + 1))
  else p

/-- The `Key` field produced by `mdResponseToS3Object`. -/
def mdKey (bucketDir : String) (md : MDNode) : String :=
  match md.type with
  | .container => relPath bucketDir md.path ++ "/"
  | .file => relPath bucketDir md.path

/-- The `appendObjects` callback of `EosBackend.ListObjects` (V1): skip
hidden resources, append every other node's key to `Contents`. -/
def appendObjectsV1 (bucketPath : String) (objects : List String)
    (md : MDNode) : List String :=
  let key := mdKey bucketPath md
  if isHiddenResource key then objects
  else objects ++ [key]

/-- `EosBackend.ListObjects` (V1): resolve the bucket, require a logged
account, then fold the remote stream (self entry skipped) through
`appendObjects`. Returns the listed keys. -/
def listObjects (getBucketResult : Except MetaErr Bucket) (acct : Option Account)
    (stream : List MDNode) : Except BackendErr (List String) :=
  match getBucketResult with
  | .error e => .error (.fromMeta e)
  | .ok bucket =>
    match acct with
    | none => .error .apiAccessDenied
    | some _ => .ok ((stream.drop 1).foldl (appendObjectsV1 bucket.path) [])

/-- Accumulator of `EosBackend.ListObjectsV2`: `objects`, `prefixes` in
insertion order; the membership test of the Go `prefixesSet` map is the
membership test on the `prefixes` list (they hold the same keys). -/
structure ListV2Acc where
  objects : List String
  prefixes : List String
  deriving DecidableEq

/-- The `appendObjects` callback of `EosBackend.ListObjectsV2`: skip hidden
resources; with delimiter "/" a container key is grouped into deduplicated
`prefixes`; otherwise only non-container nodes are appended to
`objects`. -/
def appendObjectsV2 (bucketPath delimiter : String) (acc : ListV2Acc)
    (md : MDNode) : ListV2Acc :=
  let key := mdKey bucketPath md
  if isHiddenResource key then acc
  else if delimiter = "/" ∧ md.type = .container then
    if key ∈ acc.prefixes then acc
    else { acc with prefixes := acc.prefixes ++ [key] }
  else if md.type ≠ .container then { acc with objects := acc.objects ++ [key] }
  else acc

/-- `EosBackend.ListObjectsV2` (eoss3/eoss3.go): a delimiter other than ""
or "/" is `InvalidRequest`; a non-empty listing prefix not ending in "/" is
`InvalidRequest`; then the bucket is resolved and the remote stream (self
entry skipped; recursive exactly when the delimiter is empty) is folded
through `appendObjects`. -/
def listObjectsV2 (getBucketResult : Except MetaErr Bucket)
    (pfx delimiter : String) (stream : List MDNode) :
    Except BackendErr ListV2Acc :=
  if delimiter ≠ "" ∧ delimiter ≠ "/" then .error .apiInvalidRequest
  else if pfx ≠ "" ∧ pfx.toList.getLast? ≠ some '/' then .error .apiInvalidRequest
  else
    match getBucketResult with
    | .error e => .error (.fromMeta e)
    | .ok bucket =>
      .ok ((stream.drop 1).foldl (appendObjectsV2 bucket.path delimiter) ⟨[], []⟩)

/-- The bucket of the listing scenarios. -/
def demoBucket : Bucket := ⟨"bkt", "/eos/bkt", 0⟩

/-- Depth-1 Find stream over a backing directory holding subdirectory `a`
(with files x and y inside, not streamed at depth 1) and file `b`; the
queried directory itself is streamed first. -/
def demoStreamShallow : List MDNode :=
  [⟨.container, "/eos/bkt"⟩, ⟨.container, "/eos/bkt/a"⟩, ⟨.file, "/eos/bkt/b"⟩]

/-- Recursive Find stream over the same tree. -/
def demoStreamRecursive : List MDNode :=
  [⟨.container, "/eos/bkt"⟩, ⟨.container, "/eos/bkt/a"⟩,
   ⟨.file, "/eos/bkt/a/x"⟩, ⟨.file, "/eos/bkt/a/y"⟩, ⟨.file, "/eos/bkt/b"⟩]

/-! ## Data-plane HTTP client (eos/client.go)

The mock HTTP endpoint is modelled as the list of responses it returns,
one per `httpClient.Do` round trip (the client is built with a
`CheckRedirect` that returns `ErrUseLastResponse`, so redirect responses
reach the loop unfollowed). Each loop iteration consumes the next
response; running out of responses models a transport error from `Do`.
The loops also return the trace of the requests they sent, with the
header state each request had when it was issued. -/

/-- The request headers this client manipulates (`Header.Set`
replace-semantics is `Option` overwrite). -/
structure Headers where
  gatewayAuth : Option String
  forwardedFor : Option String
  remoteUser : Option String
  contentLength : Option String
  deriving DecidableEq

/-- A request with no headers set yet (`http.NewRequest`). -/
def emptyHeaders : Headers :=
  { gatewayAuth := none, forwardedFor := none, remoteUser := none,
    contentLength := none }

/-- An HTTP request as issued by the client: verb, target URL, headers and
optional body (the upload stream's bytes; `none` = no body attached). -/
structure Request where
  method : String
  url : String
  headers : Headers
  body : Option (List Nat)
  deriving DecidableEq

/-- A response from the (mock) endpoint: status, optional Location header,
response body and its Content-Length (-1 = unknown, as in Go). -/
structure HttpResponse where
  status : Nat
  location : Option String
  body : List Nat
  contentLength : Int
  deriving DecidableEq

/-- Failures of the HTTP loops: `Location` parsing failure on a redirect,
the non-OK status error carrying the current request URL and status code
(`got non OK status code from url: status`), and a transport failure of
`Do` (modelled when the response list is exhausted). -/
inductive HttpErr
  | noLocation
  | badStatus (url : String) (status : Nat)
  | transport
  deriving DecidableEq

/-- The header lines set at the top of each loop iteration before `Do`:
`x-gateway-authorization`, `x-forwarded-for: dummy`, `remote-user`. -/
def setImpersonation (authKey username : String) (req : Request) : Request :=
  { req with headers :=
      { req.headers with
        gatewayAuth := some authKey
        forwardedFor := some "dummy"
        remoteUser := some username } }

/-- `Client.buildFullHttpUrl`: trim the configured base URL's trailing
slashes and the path's leading slashes, join with "/", append the
`eos.ruid`/`eos.rgid` query, then percent-escape every "#". -/
def buildFullHttpUrl (httpUrl : String) (uid gid : Nat) (path : String) : String :=
  escapeHash (trimRightSlash httpUrl ++ "/" ++ trimLeftSlash path ++
    "?eos.ruid=" ++ toString uid ++ "&eos.rgid=" ++ toString gid)

/-- The request `Client.Upload` re-issues after a 307 redirect:
a PUT against the Location target, carrying the data stream as body and an
explicit Content-Length header of the declared length (the impersonation
headers are then set at the top of the next loop iteration, before the
request is sent). -/
def reissuedUploadRequest (data : List Nat) (length : Nat) (loc : String) :
    Request :=
  { method := "PUT", url := loc,
    headers := { emptyHeaders with contentLength := some (toString length) },
    body := some data }

/-- The retry loop of `Client.Upload`: set the impersonation headers, issue
the request; on status 307 re-issue a PUT against the Location target
carrying the data as body and an explicit Content-Length header; on 200 or
201 succeed; on any other status fail with the current URL and status.
Returns the trace of sent requests alongside the outcome. -/
def uploadLoop (authKey username : String) (data : List Nat) (length : Nat) :
    Request → List HttpResponse → List Request × Except HttpErr Unit
  | req, [] => ([setImpersonation authKey username req], .error .transport)
  | req, res :: rest =>
    if res.status = 307 then
      match res.location with
      | none => ([setImpersonation authKey username req], .error .noLocation)
      | some loc =>
        (setImpersonation authKey username req ::
            (uploadLoop authKey username data length
              (reissuedUploadRequest data length loc) rest).1,
          (uploadLoop authKey username data length
            (reissuedUploadRequest data length loc) rest).2)
    else if res.status = 200 ∨ res.status = 201 then
      ([setImpersonation authKey username req], .ok ())
    else
      ([setImpersonation authKey username req],
        .error (.badStatus req.url res.status))

/-- `Client.Upload`: build the full URL and run the loop starting from a
PUT request with no body attached (`http.NewRequestWithContext(..., nil)`). -/
def upload (authKey username httpUrl : String) (uid gid : Nat) (path : String)
    (data : List Nat) (length : Nat) (responses : List HttpResponse) :
    List Request × Except HttpErr Unit :=
  uploadLoop authKey username data length
    { method := "PUT", url := buildFullHttpUrl httpUrl uid gid path,
      headers := emptyHeaders, body := none }
    responses

/-- The retry loop of `Client.Download`: set the impersonation headers,
issue the request; on status 302 or 307 re-issue a GET against the
Location target; on 200 succeed with the response body and its declared
Content-Length; on any other status fail with the current URL and
status. -/
def downloadLoop (authKey username : String) :
    Request → List HttpResponse →
      List Request × Except HttpErr (List Nat × Int)
  | req, [] => ([setImpersonation authKey username req], .error .transport)
  | req, res :: rest =>
    if res.status = 302 ∨ res.status = 307 then
      match res.location with
      | none => ([setImpersonation authKey username req], .error .noLocation)
      | some loc =>
        (setImpersonation authKey username req ::
            (downloadLoop authKey username
              { method := "GET", url := loc, headers := emptyHeaders,
                body := none } rest).1,
          (downloadLoop authKey username
            { method := "GET", url := loc, headers := emptyHeaders,
              body := none } rest).2)
    else if res.status = 200 then
      ([setImpersonation authKey username req], .ok (res.body, res.contentLength))
    else
      ([setImpersonation authKey username req],
        .error (.badStatus req.url res.status))

/-- `Client.Download`: build the full URL and run the loop starting from a
GET request. -/
def download (authKey username httpUrl : String) (uid gid : Nat) (path : String)
    (responses : List HttpResponse) :
    List Request × Except HttpErr (List Nat × Int) :=
  downloadLoop authKey username
    { method := "GET", url := buildFullHttpUrl httpUrl uid gid path,
      headers := emptyHeaders, body := none }
    responses

/-! ## Metadata Stat (eos/client.go) -/

/-- gRPC-level failures, as seen by `Client.Stat`: the caller-supplied
context being cancelled, or any other transport failure. -/
inductive GrpcErr
  | canceled
  | transport (msg : String)
  deriving DecidableEq

/-- Failures of `Client.Stat`: a failure of the `MD` call itself is
propagated verbatim; `ErrNoSuchResource` carries the stat'd path. -/
inductive StatErr
  | grpc (e : GrpcErr)
  | noSuchResource (path : String)
  deriving DecidableEq

/-- `Client.Stat`: issue the `MD` streaming call (its outcome is the first
input: an error there is returned unchanged); then `Recv` the single
result (second input: an empty or failed stream — any `Recv` error,
io.EOF included — is mapped to `ErrNoSuchResource{Path: path}`). -/
def stat (path : String) (mdOutcome : Except GrpcErr Unit)
    (recvOutcome : Except GrpcErr MDNode) : Except StatErr MDNode :=
  match mdOutcome with
  | .error e => .error (.grpc e)
  | .ok _ =>
    match recvOutcome with
    | .error _ => .error (.noSuchResource path)
    | .ok r => .ok r

/-- Registry state for the CreateBucket rollback scenario: empty bucket
table, no assignments, and user 1000's default bucket path set to
/eos/home (the paths map initialized and populated). -/
def c1State : MemState :=
  { buckets := [], users := [], paths := some [(1000, "/eos/home")] }

/-- Depth-1 Find stream whose backing directory holds a version-shadow
subdirectory, an atomic-rename shadow file, and one regular file. -/
def demoStreamHidden : List MDNode :=
  [⟨.container, "/eos/bkt"⟩, ⟨.container, "/eos/bkt/.sys.v#.obj"⟩,
   ⟨.file, "/eos/bkt/.sys.a#.obj.123"⟩, ⟨.file, "/eos/bkt/b"⟩]

/-! ## Theorems -/

/-- **C1** (code_bug evaluation). Failing input: a registry holding no
bucket, user 1000 with default path /eos/home, a logged account for uid
1000, and a remote mkdir that fails. The backend's `CreateBucket` writes
the registry entry and, when mkdir then fails, returns the error with the
registry entry still present: a subsequent `GetBucket "mybucket"` succeeds
instead of returning NotFound. The CLI create-bucket sequence on the same
input does compensate, leaving `GetBucket` at NotFound, which is the
spec's stated intent. -/
theorem C1_createBucket_rollback_eval :
    (backendCreateBucket c1State (some ⟨1000, 1000⟩) "mybucket" 7
        (.error "mkdir failed")).2 = .error (.fromEos "mkdir failed") ∧
    memGetBucket (backendCreateBucket c1State (some ⟨1000, 1000⟩) "mybucket" 7
        (.error "mkdir failed")).1 "mybucket" =
      .ok ⟨"mybucket", "/eos/home/mybucket", 7⟩ ∧
    memGetBucket (cmdCreateBucket c1State "mybucket" "/eos/home/mybucket" 1000 7
        (.error "mkdir failed")).1 "mybucket" = .error .noSuchBucket := by
  decide

/-- **C2** (counterexample). Over the five registered buckets with empty
name filter and max = 2, the first `prepareListBucketResult` page holds
only b1 (not the claimed two entries b1 and b2), and iterated pagination
produces five pages, not the claimed three. -/
theorem C2_pagination_counterexample :
    (prepareListBucketResult demoBuckets "" "" 2).1.map
        (fun e => e.name) = ["b1"] ∧
    (prepareListBucketResult demoBuckets "" "" 2).2 = "b2" ∧
    ¬ (prepareListBucketResult demoBuckets "" "" 2).1.map
        (fun e => e.name) = ["b1", "b2"] ∧
    (paginateListBuckets demoBuckets "" 2 10 "").length = 5 ∧
    ¬ (paginateListBuckets demoBuckets "" 2 10 "").length = 3 := by
  decide

/-- **C2** (amended). Iterated ListBuckets pagination over [b1..b5] with
empty name filter and max = 2 yields five pages of one entry each: {b1}
with token b2, {b2} with token b3, {b3} with token b4, {b4} with token b5,
then {b5} with the empty token. Each page carries at most max−1 entries;
the continuation token names the first bucket not yet returned, and
resumption restarts at the token's bucket inclusively. -/
theorem C2_pagination_amended :
    (paginateListBuckets demoBuckets "" 2 10 "").map
        (fun page => (page.1.map (fun e => e.name), page.2)) =
      [(["b1"], "b2"), (["b2"], "b3"), (["b3"], "b4"), (["b4"], "b5"),
       (["b5"], "")] := by
  decide

/-- **C7** (code_bug evaluation). Failing input: a fresh on-disk storer
(no metadata file for uid 0) and `StoreDefaultBucketPath 0 "/eos/project/s3"`.
The store writes back the old (empty) metadata, never recording the new
path, so the subsequent `GetDefaultBucketPath` returns "" instead of
"/eos/project/s3". On the in-memory driver the same call panics outright:
the constructor leaves the `paths` map nil and the store assigns into it. -/
theorem C7_storeDefaultBucketPath_eval :
    localStoreDefaultBucketPath none "/eos/project/s3" = some ⟨""⟩ ∧
    localGetDefaultBucketPath
        (localStoreDefaultBucketPath none "/eos/project/s3") = "" ∧
    ¬ localGetDefaultBucketPath
        (localStoreDefaultBucketPath none "/eos/project/s3") = "/eos/project/s3" ∧
    memStoreDefaultBucketPath newInMemoryBucketStorer 42 "/eos/project/s3" =
      .error .nilMapWrite := by
  decide

/-- **C8** (code_bug evaluation). Failing input: a fresh in-memory storer,
`AssignBucket "projects" 42`, then `ListBucketsByUser 42`. The assignment
is recorded in the users map, but `ListBucketsByUser` copies it into a
length-zero slice (`make` with length 0 then `copy`), so it returns the
empty list and the assigned bucket never appears. -/
theorem C8_listBucketsByUser_eval :
    (memAssignBucket newInMemoryBucketStorer "projects" 42).users =
      [(42, ["projects"])] ∧
    memListBucketsByUser
        (memAssignBucket newInMemoryBucketStorer "projects" 42) 42 = [] ∧
    ¬ "projects" ∈ memListBucketsByUser
        (memAssignBucket newInMemoryBucketStorer "projects" 42) 42 := by
  decide

/-- Any property preserved by the impersonation-header set and holding of
every re-issued request holds of every request the upload loop sends, once
it holds of the loop's current request. -/
theorem uploadLoop_trace_inv (authKey username : String) (data : List Nat)
    (length : Nat) (P : Request → Prop)
    (hSet : ∀ r, P r → P (setImpersonation authKey username r))
    (hRe : ∀ loc, P (reissuedUploadRequest data length loc)) :
    ∀ (responses : List HttpResponse) (req : Request), P req →
      ∀ r ∈ (uploadLoop authKey username data length req responses).1, P r := by
  intro responses
  induction responses with
  | nil =>
    intro req hreq r hr
    simp only [uploadLoop, List.mem_singleton] at hr
    subst hr
    exact hSet req hreq
  | cons res rest ih =>
    intro req hreq r hr
    simp only [uploadLoop] at hr
    split at hr
    · split at hr
      · simp only [List.mem_singleton] at hr
        subst hr
        exact hSet req hreq
      · simp only [List.mem_cons] at hr
        rcases hr with rfl | hr
        · exact hSet req hreq
        · exact ih _ (hRe _) r hr
    · split at hr <;>
        (simp only [List.mem_singleton] at hr; subst hr; exact hSet req hreq)

/-- The first request the upload loop sends is the current request with
the impersonation headers set. -/
theorem uploadLoop_trace_take_one (authKey username : String) (data : List Nat)
    (length : Nat) (responses : List HttpResponse) (req : Request) :
    (uploadLoop authKey username data length req responses).1.take 1 =
      [setImpersonation authKey username req] := by
  cases responses with
  | nil => rfl
  | cons res rest =>
    simp only [uploadLoop]
    split
    · split <;> rfl
    · split <;> rfl

/-- Every request the upload loop sends after the first is a re-issued
one: verb PUT, the data stream attached as body, and an explicit
Content-Length header equal to the declared length. -/
theorem uploadLoop_trace_drop_one (authKey username : String) (data : List Nat)
    (length : Nat) :
    ∀ (responses : List HttpResponse) (req : Request),
      ∀ r ∈ (uploadLoop authKey username data length req responses).1.drop 1,
        r.method = "PUT" ∧ r.body = some data ∧
        r.headers.contentLength = some (toString length) := by
  intro responses
  cases responses with
  | nil => intro req r hr; simp [uploadLoop] at hr
  | cons res rest =>
    intro req r hr
    simp only [uploadLoop] at hr
    split at hr
    · split at hr
      · simp at hr
      · simp only [List.drop_succ_cons, List.drop_zero] at hr
        exact uploadLoop_trace_inv authKey username data length
          (fun q => q.method = "PUT" ∧ q.body = some data ∧
            q.headers.contentLength = some (toString length))
          (fun q hq => hq) (fun loc => ⟨rfl, rfl, rfl⟩) rest _
          ⟨rfl, rfl, rfl⟩ r hr
    · split at hr <;> simp at hr

/-- Every request the upload loop sends carries the three impersonation
headers, set at the top of the iteration that sent it. -/
theorem uploadLoop_sent_impersonated (authKey username : String)
    (data : List Nat) (length : Nat) :
    ∀ (responses : List HttpResponse) (req : Request),
      ∀ r ∈ (uploadLoop authKey username data length req responses).1,
        r.headers.gatewayAuth = some authKey ∧
        r.headers.forwardedFor = some "dummy" ∧
        r.headers.remoteUser = some username := by
  intro responses
  induction responses with
  | nil =>
    intro req r hr
    simp only [uploadLoop, List.mem_singleton] at hr
    subst hr
    exact ⟨rfl, rfl, rfl⟩
  | cons res rest ih =>
    intro req r hr
    simp only [uploadLoop] at hr
    split at hr
    · split at hr
      · simp only [List.mem_singleton] at hr
        subst hr
        exact ⟨rfl, rfl, rfl⟩
      · simp only [List.mem_cons] at hr
        rcases hr with rfl | hr
        · exact ⟨rfl, rfl, rfl⟩
        · exact ih _ r hr
    · split at hr <;>
        (simp only [List.mem_singleton] at hr; subst hr; exact ⟨rfl, rfl, rfl⟩)

/-- **C3** (counterexample). A front door that answers 200 directly, with
no redirect: Upload returns success, yet the only request it sent carried
no body — the three-byte input stream was never consumed. -/
theorem C3_upload_counterexample :
    (upload "authkey" "alice" "http://mgm:8000" 1000 1000 "/eos/f" [1, 2, 3] 3
        [⟨200, none, [], -1⟩]).2 = .ok () ∧
    (upload "authkey" "alice" "http://mgm:8000" 1000 1000 "/eos/f" [1, 2, 3] 3
        [⟨200, none, [], -1⟩]).1.map (fun r => r.body) = [none] := by
  decide

/-- **C3** (amended). The initial front-door request of every Upload
carries no body; the stream is attached (in full, as the request body)
only to the re-issued requests that follow a redirect — so on a success
obtained without any redirect the stream has not been consumed, and on a
success after a redirect every re-issued request carried the full
stream. -/
theorem C3_upload_consumption_amended :
    (∀ (authKey username httpUrl : String) (uid gid : Nat) (path : String)
        (data : List Nat) (length : Nat) (responses : List HttpResponse),
      ∀ r ∈ (upload authKey username httpUrl uid gid path data length
          responses).1.take 1, r.body = none) ∧
    (∀ (authKey username httpUrl : String) (uid gid : Nat) (path : String)
        (data : List Nat) (length : Nat) (responses : List HttpResponse),
      ∀ r ∈ (upload authKey username httpUrl uid gid path data length
          responses).1.drop 1, r.body = some data) := by
  constructor
  · intro authKey username httpUrl uid gid path data length responses r hr
    simp only [upload, uploadLoop_trace_take_one, List.mem_singleton] at hr
    subst hr
    rfl
  · intro authKey username httpUrl uid gid path data length responses r hr
    simp only [upload] at hr
    exact (uploadLoop_trace_drop_one authKey username data length
      responses _ r hr).2.1

/-- **C3** witness: on the direct-200 run, the single sent request (the
impersonated initial one) carried no body. -/
theorem C3_upload_consumption_amended_witness :
    (setImpersonation "authkey" "alice"
        { method := "PUT",
          url := buildFullHttpUrl "http://mgm:8000" 1000 1000 "/eos/f",
          headers := emptyHeaders, body := none } : Request).body = none :=
  C3_upload_consumption_amended.1 "authkey" "alice" "http://mgm:8000" 1000 1000
    "/eos/f" [1, 2, 3] 3 [⟨200, none, [], -1⟩] _ (by decide)

/-- **C4** (confirmed). Every request an Upload re-issues after a redirect
uses the PUT verb, carries the not-yet-consumed stream as its body, states
an explicit Content-Length equal to the declared length, and carries the
re-attached impersonation headers (gateway-authorization key, forwarded
marker, impersonated username); and against a mock endpoint answering one
redirect then a success status, both Upload and Download (with a declared
length) complete successfully. -/
theorem C4_upload_redirect_reissue :
    (∀ (authKey username httpUrl : String) (uid gid : Nat) (path : String)
        (data : List Nat) (length : Nat) (responses : List HttpResponse),
      ∀ r ∈ (upload authKey username httpUrl uid gid path data length
          responses).1.drop 1,
        r.method = "PUT" ∧ r.body = some data ∧
        r.headers.contentLength = some (toString length) ∧
        r.headers.gatewayAuth = some authKey ∧
        r.headers.forwardedFor = some "dummy" ∧
        r.headers.remoteUser = some username) ∧
    (upload "authkey" "alice" "http://mgm:8000" 1000 1000 "/eos/f" [7, 8, 9] 3
        [⟨307, some "http://fst:1095/f", [], -1⟩, ⟨200, none, [], -1⟩]).2 =
      .ok () ∧
    (download "authkey" "alice" "http://mgm:8000" 1000 1000 "/eos/f"
        [⟨307, some "http://fst:1095/f", [], -1⟩,
         ⟨200, none, [7, 8, 9], 3⟩]).2 = .ok ([7, 8, 9], 3) := by
  refine ⟨?_, by decide, by decide⟩
  intro authKey username httpUrl uid gid path data length responses r hr
  simp only [upload] at hr
  have h1 := uploadLoop_trace_drop_one authKey username data length
    responses _ r hr
  have h2 := uploadLoop_sent_impersonated authKey username data length
    responses _ r (List.drop_subset _ _ hr)
  exact ⟨h1.1, h1.2.1, h1.2.2, h2.1, h2.2.1, h2.2.2⟩

/-- **C4** witness: on the one-redirect mock run, the concrete re-issued
request satisfies all the re-issue properties. -/
theorem C4_upload_redirect_reissue_witness :
    (setImpersonation "authkey" "alice"
        (reissuedUploadRequest [7, 8, 9] 3 "http://fst:1095/f")).method = "PUT" ∧
    (setImpersonation "authkey" "alice"
        (reissuedUploadRequest [7, 8, 9] 3 "http://fst:1095/f")).body =
      some [7, 8, 9] ∧
    (setImpersonation "authkey" "alice"
        (reissuedUploadRequest [7, 8, 9] 3 "http://fst:1095/f")).headers.contentLength =
      some (toString 3) ∧
    (setImpersonation "authkey" "alice"
        (reissuedUploadRequest [7, 8, 9] 3 "http://fst:1095/f")).headers.gatewayAuth =
      some "authkey" ∧
    (setImpersonation "authkey" "alice"
        (reissuedUploadRequest [7, 8, 9] 3 "http://fst:1095/f")).headers.forwardedFor =
      some "dummy" ∧
    (setImpersonation "authkey" "alice"
        (reissuedUploadRequest [7, 8, 9] 3 "http://fst:1095/f")).headers.remoteUser =
      some "alice" :=
  C4_upload_redirect_reissue.1 "authkey" "alice" "http://mgm:8000" 1000 1000
    "/eos/f" [7, 8, 9] 3
    [⟨307, some "http://fst:1095/f", [], -1⟩, ⟨200, none, [], -1⟩]
    (setImpersonation "authkey" "alice"
      (reissuedUploadRequest [7, 8, 9] 3 "http://fst:1095/f"))
    (by decide)

/-- **C5** (counterexample). A terminal 201 is accepted by Upload but
rejected by Download: Download on a single 201 response fails with the
bad-status error carrying the request URL and the code 201, while Upload
on the same terminal status succeeds. -/
theorem C5_status_counterexample :
    (download "authkey" "alice" "http://mgm:8000" 1000 1000 "/eos/f"
        [⟨201, none, [], -1⟩]).2 =
      .error (.badStatus
        (buildFullHttpUrl "http://mgm:8000" 1000 1000 "/eos/f") 201) ∧
    (upload "authkey" "alice" "http://mgm:8000" 1000 1000 "/eos/f" [] 0
        [⟨201, none, [], -1⟩]).2 = .ok () := by
  decide

/-- **C5** (amended). At any point of either loop, a terminal
(non-redirect) response decides the call: Upload succeeds exactly on 200
and 201, Download succeeds exactly on 200 (201 is a failure for Download),
and every other terminal status fails with an error carrying the current
request URL and the status code. -/
theorem C5_terminal_status_amended :
    (∀ (authKey username : String) (data : List Nat) (length : Nat)
        (req : Request) (s : Nat) (loc : Option String) (body : List Nat)
        (cl : Int) (rest : List HttpResponse),
      ¬ s = 307 →
      (uploadLoop authKey username data length req
          (⟨s, loc, body, cl⟩ :: rest)).2 =
        if s = 200 ∨ s = 201 then .ok ()
        else .error (.badStatus req.url s)) ∧
    (∀ (authKey username : String) (req : Request) (s : Nat)
        (loc : Option String) (body : List Nat) (cl : Int)
        (rest : List HttpResponse),
      ¬ (s = 302 ∨ s = 307) →
      (downloadLoop authKey username req (⟨s, loc, body, cl⟩ :: rest)).2 =
        if s = 200 then .ok (body, cl)
        else .error (.badStatus req.url s)) := by
  constructor
  · intro authKey username data length req s loc body cl rest hs
    simp only [uploadLoop]
    rw [if_neg hs]
    by_cases h : s = 200 ∨ s = 201
    · rw [if_pos h, if_pos h]
    · rw [if_neg h, if_neg h]
  · intro authKey username req s loc body cl rest hs
    simp only [downloadLoop]
    rw [if_neg hs]
    by_cases h : s = 200
    · rw [if_pos h, if_pos h]
    · rw [if_neg h, if_neg h]

/-- **C5** witness: a terminal 404 during an upload yields the bad-status
failure carrying the current URL and 404. -/
theorem C5_terminal_status_amended_witness :
    (uploadLoop "authkey" "alice" [1] 1
        { method := "PUT", url := "http://mgm:8000/f", headers := emptyHeaders,
          body := none } [⟨404, none, [], -1⟩]).2 =
      if (404 : Nat) = 200 ∨ (404 : Nat) = 201 then .ok ()
      else .error (.badStatus "http://mgm:8000/f" 404) :=
  C5_terminal_status_amended.1 "authkey" "alice" [1] 1
    { method := "PUT", url := "http://mgm:8000/f", headers := emptyHeaders,
      body := none } 404 none [] (-1) [] (by decide)

/-- **C10** (counterexample). When the `MD` call opens the stream but the
caller's context is cancelled before `Recv` delivers the entry, the `Recv`
failure is mapped to `ErrNoSuchResource`: the cancellation is surfaced as
the not-found result, conflating the two. -/
theorem C10_stat_counterexample :
    stat "/eos/f" (.ok ()) (.error .canceled) =
      .error (.noSuchResource "/eos/f") := by
  rfl

/-- A key of the V1 accumulator after one `appendObjects` step is either
an old key or one that passed the hidden-resource filter. -/
theorem appendObjectsV1_mem (bucketPath : String) (objects : List String)
    (md : MDNode) (k : String)
    (hk : k ∈ appendObjectsV1 bucketPath objects md) :
    k ∈ objects ∨ isHiddenResource k = false := by
  simp only [appendObjectsV1] at hk
  split at hk
  · exact .inl hk
  · next hHidden =>
    rw [Bool.not_eq_true] at hHidden
    rcases List.mem_append.mp hk with h1 | h1
    · exact .inl h1
    · rcases List.mem_singleton.mp h1 with rfl
      exact .inr hHidden

/-- Folding the V1 callback over any stream only adds keys that passed the
hidden-resource filter. -/
theorem foldl_appendObjectsV1_mem (bucketPath : String) :
    ∀ (stream : List MDNode) (objects : List String) (k : String),
      k ∈ stream.foldl (appendObjectsV1 bucketPath) objects →
      k ∈ objects ∨ isHiddenResource k = false := by
  intro stream
  induction stream with
  | nil => exact fun objects k hk => .inl hk
  | cons md rest ih =>
    intro objects k hk
    rcases ih (appendObjectsV1 bucketPath objects md) k hk with h | h
    · exact appendObjectsV1_mem bucketPath objects md k h
    · exact .inr h

/-- A key of the V2 accumulator after one `appendObjects` step is either
an old key or one that passed the hidden-resource filter. -/
theorem appendObjectsV2_mem (bucketPath delimiter : String) (acc : ListV2Acc)
    (md : MDNode) (k : String)
    (hk : k ∈ (appendObjectsV2 bucketPath delimiter acc md).objects ∨
          k ∈ (appendObjectsV2 bucketPath delimiter acc md).prefixes) :
    (k ∈ acc.objects ∨ k ∈ acc.prefixes) ∨ isHiddenResource k = false := by
  simp only [appendObjectsV2] at hk
  split at hk
  · exact .inl hk
  · next hHidden =>
    rw [Bool.not_eq_true] at hHidden
    split at hk
    · split at hk
      · exact .inl hk
      · rcases hk with hk | hk
        · exact .inl (.inl hk)
        · rcases List.mem_append.mp hk with h1 | h1
          · exact .inl (.inr h1)
          · rcases List.mem_singleton.mp h1 with rfl
            exact .inr hHidden
    · split at hk
      · rcases hk with hk | hk
        · rcases List.mem_append.mp hk with h1 | h1
          · exact .inl (.inl h1)
          · rcases List.mem_singleton.mp h1 with rfl
            exact .inr hHidden
        · exact .inl (.inr hk)
      · exact .inl hk

/-- Folding the V2 callback over any stream only adds keys that passed the
hidden-resource filter. -/
theorem foldl_appendObjectsV2_mem (bucketPath delimiter : String) :
    ∀ (stream : List MDNode) (acc : ListV2Acc) (k : String),
      (k ∈ (stream.foldl (appendObjectsV2 bucketPath delimiter) acc).objects ∨
       k ∈ (stream.foldl (appendObjectsV2 bucketPath delimiter) acc).prefixes) →
      (k ∈ acc.objects ∨ k ∈ acc.prefixes) ∨ isHiddenResource k = false := by
  intro stream
  induction stream with
  | nil => exact fun acc k hk => .inl hk
  | cons md rest ih =>
    intro acc k hk
    rcases ih (appendObjectsV2 bucketPath delimiter acc md) k hk with h | h
    · exact appendObjectsV2_mem bucketPath delimiter acc md k h
    · exact .inr h

/-- A non-hidden key contains neither the version-folder marker nor the
atomic-file marker. -/
theorem isHiddenResource_eq_false {k : String}
    (h : isHiddenResource k = false) :
    isVersionFolder k = false ∧ isAtomicFile k = false := by
  simpa [isHiddenResource] using h

/-- **C6** (confirmed). Over a backing directory holding exactly a/x, a/y
and b: ListObjectsV2 with delimiter "/" over the depth-1 stream returns
Contents = [b] and deduplicated CommonPrefixes = [a/]; with no delimiter
over the recursive stream it returns Contents = [a/x, a/y, b] and no
common prefixes and no directory entries; and any delimiter other than "/"
or "" is rejected as InvalidRequest on every input. -/
theorem C6_listObjectsV2_semantics :
    listObjectsV2 (.ok demoBucket) "" "/" demoStreamShallow =
      .ok ⟨["b"], ["a/"]⟩ ∧
    listObjectsV2 (.ok demoBucket) "" "" demoStreamRecursive =
      .ok ⟨["a/x", "a/y", "b"], []⟩ ∧
    (∀ (gb : Except MetaErr Bucket) (pfx d : String) (stream : List MDNode),
      ¬ d = "/" → ¬ d = "" →
      listObjectsV2 gb pfx d stream = .error .apiInvalidRequest) := by
  refine ⟨by decide, by decide, ?_⟩
  intro gb pfx d stream h1 h2
  unfold listObjectsV2
  rw [if_pos ⟨h2, h1⟩]

/-- **C6** witness: the unsupported delimiter "-" is rejected on the
concrete scenario. -/
theorem C6_listObjectsV2_semantics_witness :
    listObjectsV2 (.ok demoBucket) "" "-" demoStreamShallow =
      .error .apiInvalidRequest :=
  C6_listObjectsV2_semantics.2.2 (.ok demoBucket) "" "-" demoStreamShallow
    (by decide) (by decide)

/-- **C9** (confirmed). For every listing — ListObjects, and ListObjectsV2
under any delimiter — no returned key in Contents or CommonPrefixes
contains the version-shadow marker ".sys.v#." or the atomic-rename marker
".sys.a#". -/
theorem C9_no_hidden_in_listings :
    (∀ (gb : Except MetaErr Bucket) (acct : Option Account)
        (stream : List MDNode) (keys : List String),
      listObjects gb acct stream = .ok keys →
      ∀ k ∈ keys, isVersionFolder k = false ∧ isAtomicFile k = false) ∧
    (∀ (gb : Except MetaErr Bucket) (pfx delimiter : String)
        (stream : List MDNode) (result : ListV2Acc),
      listObjectsV2 gb pfx delimiter stream = .ok result →
      ∀ k, (k ∈ result.objects ∨ k ∈ result.prefixes) →
        isVersionFolder k = false ∧ isAtomicFile k = false) := by
  constructor
  · intro gb acct stream keys h k hk
    unfold listObjects at h
    split at h
    · cases h
    · split at h
      · cases h
      · injection h with h
        subst h
        rcases foldl_appendObjectsV1_mem _ _ _ k hk with h | h
        · cases h
        · exact isHiddenResource_eq_false h
  · intro gb pfx delimiter stream result h k hk
    unfold listObjectsV2 at h
    split at h
    · cases h
    · split at h
      · cases h
      · split at h
        · cases h
        · injection h with h
          subst h
          rcases foldl_appendObjectsV2_mem _ _ _ _ k hk with h | h
          · rcases h with h | h <;> cases h
          · exact isHiddenResource_eq_false h

/-- **C9** witness: over a stream holding a version-shadow directory and
an atomic-rename shadow file, the single surviving key b is marker-free. -/
theorem C9_no_hidden_in_listings_witness :
    isVersionFolder "b" = false ∧ isAtomicFile "b" = false :=
  C9_no_hidden_in_listings.2 (.ok demoBucket) "" "/" demoStreamHidden
    ⟨["b"], []⟩ (by decide) "b" (.inl (by decide))

/-- **C10** (amended). A failure of the `MD` call itself — cancellation
included — is propagated verbatim and is never the not-found result; any
`Recv` failure, cancellation during the stream included, and an empty
stream are reported as `ErrNoSuchResource` (not-found, never a transport
error); a received entry is returned as-is. -/
theorem C10_stat_errors_amended :
    (∀ (path : String) (e : GrpcErr) (recv : Except GrpcErr MDNode),
      stat path (.error e) recv = .error (.grpc e)) ∧
    (∀ (path q : String) (e : GrpcErr) (recv : Except GrpcErr MDNode),
      ¬ stat path (.error e) recv = .error (.noSuchResource q)) ∧
    (∀ (path : String) (e : GrpcErr),
      stat path (.ok ()) (.error e) = .error (.noSuchResource path)) ∧
    (∀ (path : String) (n : MDNode),
      stat path (.ok ()) (.ok n) = .ok n) := by
  refine ⟨fun path e recv => rfl, ?_, fun path e => rfl, fun path n => rfl⟩
  intro path q e recv h
  simp [stat] at h

end EosS3
